import Mathlib

/-!
Verification of the feature-engineering and anomaly-scoring pipeline of the
EdgeAI IoT anomaly-detection repository.

The Python sources are shallowly embedded:

* `src/src/feature_engineer.py` — `engineer_features`, its helper column
  computations and `get_feature_vector`;
* `src/src/anomaly_detector.py` — the `AnomalyDetector` train/predict/score
  state machine (the fitted isolation forest itself is `sklearn` library code
  and is abstracted as function-valued fields / a `fitFn` parameter);
* `src/main.py` — the CLI orchestrator `train_model_cli`;
* `src/src/data_handler.py` — `update_anomaly_status` over an embedded row
  store standing for the `network_logs` SQLite table;
* `src/src/ai_model.py` — `predict_anomaly`'s risk-score rescaling and clamp.

Numeric values are embedded as `ℚ`.  The sample standard deviation used by
pandas `rolling(...).std()` needs a square root, which is irrational in
general; the engine is therefore parametrised by an abstract square-root
function `sqrtFn : ℚ → ℚ`, applied exactly where `numpy` would take a square
root.  No claim below depends on the value of `sqrtFn` (the windows that the
claims constrain have fewer than two samples, where pandas yields `NaN` and
the code fills `0`).  Possibly non-finite floats (NaN, ±∞) are embedded by
the inductive `FVal`, used where the code's `np.nan_to_num` sanitisation is
the subject of a claim.
-/

/-- One row of the raw network-log batch handed to the feature engineer
(the columns of the `network_logs` table that the engine reads, including
the storage-assigned `id` carried through the pipeline). -/
structure Event where
  id : Nat
  timestamp : ℚ
  device_id : String
  source_ip : String
  destination_ip : String
  port : Nat
  protocol : String
  bytes_sent : ℚ
  bytes_received : ℚ
deriving DecidableEq, Repr

instance : Inhabited Event := ⟨⟨0, 0, "", "", "", 0, "", 0, 0⟩⟩

/-- One row of the engineered feature table: the original event columns plus
every column added by `FeatureEngineer.engineer_features`
(`src/src/feature_engineer.py`). -/
structure FeatureRow where
  id : Nat
  timestamp : ℚ
  device_id : String
  source_ip : String
  destination_ip : String
  port : Nat
  protocol : String
  bytes_sent : ℚ
  bytes_received : ℚ
  datetime : ℚ
  delta_t : ℚ
  delta_t_device : ℚ
  delta_t_source : ℚ
  delta_t_mean : ℚ
  delta_t_std : ℚ
  hour : ℤ
  day_of_week : ℤ
  minute : ℤ
  events_per_window : ℚ
  total_bytes : ℚ
  bytes_ratio : ℚ
  bytes_mean : ℚ
  bytes_std : ℚ
  bytes_zscore : ℚ
  device_event_count : Nat
  unique_destinations : Nat
  unique_ports : Nat
deriving DecidableEq, Repr

instance : Inhabited FeatureRow :=
  ⟨⟨0, 0, "", "", "", 0, "", 0, 0, 0, 0, 0, 0, 0, 0, 0, 0, 0, 0, 0, 0, 0, 0, 0, 0, 0, 0⟩⟩

/-- Comparison used by `features_df.sort_values('timestamp')`. -/
abbrev tsLE (a b : Event) : Prop := a.timestamp ≤ b.timestamp

instance : IsTotal Event tsLE := ⟨fun a b => le_total a.timestamp b.timestamp⟩

instance : IsTrans Event tsLE := ⟨fun _ _ _ hab hbc => le_trans hab hbc⟩

/-- `features_df.sort_values('timestamp')`: the batch re-ordered by ascending
timestamp. -/
def sortEvents (df : List Event) : List Event := List.insertionSort tsLE df

/-- `df['timestamp'].diff().fillna(0)` at sorted position `j`: difference to
the previous row's timestamp, `0` for the first row. -/
def deltaTAt (s : List Event) (j : Nat) : ℚ :=
  if j = 0 then 0 else (s.getD j default).timestamp - (s.getD (j - 1) default).timestamp

/-- `df['bytes_sent'] + df['bytes_received']` at sorted position `j`. -/
def totalBytesAt (s : List Event) (j : Nat) : ℚ :=
  (s.getD j default).bytes_sent + (s.getD j default).bytes_received

/-- The positions of the trailing `rolling(window=10, min_periods=1)` window
ending at position `i` (the last `min 10 (i+1)` positions). -/
def window10 (i : Nat) : List Nat := (List.range (i + 1)).drop (i + 1 - 10)

/-- The column values inside the trailing 10-row window ending at `i`. -/
def rollingVals (c : Nat → ℚ) (i : Nat) : List ℚ := (window10 i).map c

/-- `rolling(window=10, min_periods=1).mean()` of the column `c` at `i`. -/
def rollingMean (c : Nat → ℚ) (i : Nat) : ℚ :=
  (rollingVals c i).sum / ((rollingVals c i).length : ℚ)

/-- `rolling(window=10, min_periods=1).std().fillna(0)` of column `c` at `i`:
pandas' sample standard deviation (ddof = 1); a window of fewer than two
samples gives `NaN`, which `.fillna(0)` turns into `0`. -/
def rollingStd (sqrtFn : ℚ → ℚ) (c : Nat → ℚ) (i : Nat) : ℚ :=
  let w := rollingVals c i
  if w.length < 2 then 0
  else sqrtFn ((w.map (fun x => (x - rollingMean c i) ^ 2)).sum / ((w.length : ℚ) - 1))

/-- `df.groupby(key)['timestamp'].diff().fillna(0)` at sorted position `i` for
the event `e` sitting there: timestamp difference to the latest earlier row
with the same key, `0` when there is none. -/
def groupDeltaAt (key : Event → String) (s : List Event) (i : Nat) (e : Event) : ℚ :=
  match ((List.range i).filter (fun j => decide (key (s.getD j default) = key e))).getLast? with
  | some j => e.timestamp - (s.getD j default).timestamp
  | none => 0

/-- The engineered feature row built at sorted position `i` (holding event
`e`) of the sorted batch `s`, mirroring the column assignments of
`_compute_time_deltas`, `_compute_time_based_aggregations`,
`_compute_traffic_features` and `_compute_device_features`.  Pandas'
time-based `rolling(window='60s', on='datetime')` counts the rows at
positions `≤ i` whose timestamp lies in the half-open interval
`(t_i - time_window, t_i]` (default `closed='right'`, window end at the
current row). -/
def mkRow (sqrtFn : ℚ → ℚ) (time_window : ℚ) (s : List Event) (i : Nat) (e : Event) :
    FeatureRow :=
  let tb := e.bytes_sent + e.bytes_received
  let bmean := rollingMean (totalBytesAt s) i
  let bstd := rollingStd sqrtFn (totalBytesAt s) i
  let sameDevice := s.filter (fun x => decide (x.device_id = e.device_id))
  { id := e.id
    timestamp := e.timestamp
    device_id := e.device_id
    source_ip := e.source_ip
    destination_ip := e.destination_ip
    port := e.port
    protocol := e.protocol
    bytes_sent := e.bytes_sent
    bytes_received := e.bytes_received
    datetime := e.timestamp
    delta_t := deltaTAt s i
    delta_t_device := groupDeltaAt Event.device_id s i e
    delta_t_source := groupDeltaAt Event.source_ip s i e
    delta_t_mean := rollingMean (deltaTAt s) i
    delta_t_std := rollingStd sqrtFn (deltaTAt s) i
    hour := (Int.fdiv ⌊e.timestamp⌋ 3600).emod 24
    day_of_week := (Int.fdiv ⌊e.timestamp⌋ 86400 + 3).emod 7
    minute := (Int.fdiv ⌊e.timestamp⌋ 60).emod 60
    events_per_window :=
      (((s.take (i + 1)).filter (fun x =>
        decide (e.timestamp - time_window < x.timestamp ∧ x.timestamp ≤ e.timestamp))).length : ℚ)
    total_bytes := tb
    bytes_ratio := if e.bytes_received > 0 then e.bytes_sent / e.bytes_received else 0
    bytes_mean := bmean
    bytes_std := bstd
    bytes_zscore := if bstd > 0 then (tb - bmean) / bstd else 0
    device_event_count := sameDevice.length
    unique_destinations := (sameDevice.map (·.destination_ip)).dedup.length
    unique_ports := (sameDevice.map (·.port)).dedup.length }

/-- `FeatureEngineer.engineer_features`: an empty batch is returned as is;
otherwise the batch is sorted by timestamp and each sorted row is extended
with the engineered columns (every column is a function of the sorted batch
and the row's position, exactly as the vectorised pandas pipeline computes
it). -/
def engineer_features (sqrtFn : ℚ → ℚ) (time_window : ℚ) (df : List Event) :
    List FeatureRow :=
  if df.isEmpty then []
  else
    let s := sortEvents df
    s.enum.map (fun p => mkRow sqrtFn time_window s p.1 p.2)

/-- A floating-point cell as the feature-vector extractor sees it: finite, or
one of the non-finite IEEE values NaN, +∞, −∞. -/
inductive FVal where
  | fin (q : ℚ)
  | nan
  | pinf
  | ninf
deriving DecidableEq, Repr

/-- Whether a cell holds a finite value. -/
def FVal.isFinite : FVal → Bool
  | .fin _ => true
  | _ => false

/-- `np.nan_to_num(x, nan=0.0, posinf=0.0, neginf=0.0)` on one cell. -/
def nan_to_num : FVal → FVal
  | .fin q => .fin q
  | _ => .fin 0

/-- `FeatureEngineer.get_feature_vector`: an empty feature table yields the
empty matrix `np.array([])`; otherwise the matrix of the available feature
columns (the rows of `table` are those selected columns, in the canonical
order) with every cell passed through `np.nan_to_num`. -/
def get_feature_vector (table : List (List FVal)) : List (List FVal) :=
  if table.isEmpty then []
  else table.map (fun row => row.map nan_to_num)

/-- The canonical 20-column feature vector of one engineered row, in the
order listed in `get_feature_vector` (`feature_columns`); all cells are
finite here because the `ℚ` embedding of the engine produces no NaN/∞. -/
def FeatureRow.toVector (r : FeatureRow) : List FVal :=
  [.fin r.delta_t, .fin r.delta_t_device, .fin r.delta_t_source,
   .fin r.delta_t_mean, .fin r.delta_t_std,
   .fin (r.hour : ℚ), .fin (r.day_of_week : ℚ), .fin (r.minute : ℚ),
   .fin r.events_per_window,
   .fin r.total_bytes, .fin r.bytes_ratio, .fin r.bytes_mean, .fin r.bytes_std,
   .fin r.bytes_zscore,
   .fin (r.device_event_count : ℚ), .fin (r.unique_destinations : ℚ),
   .fin (r.unique_ports : ℚ),
   .fin (r.port : ℚ), .fin r.bytes_sent, .fin r.bytes_received]

/-- The feature matrix type consumed by the detector (`n_samples` rows). -/
abbrev Mat := List (List FVal)

/-- Errors raised by `AnomalyDetector` (`ValueError` on an empty training
set, `RuntimeError` before training). -/
inductive DetectorError where
  | invalidInput
  | notTrained
deriving DecidableEq, Repr

/-- The fitted isolation forest, abstracted to its two operations used by the
detector (`sklearn` internals are outside the repository). -/
structure IsoForestModel where
  predictFn : Mat → List Int
  scoreFn : Mat → List ℚ

/-- `AnomalyDetector` state: hyperparameters, the wrapped model and the
`is_trained` flag. -/
structure AnomalyDetector where
  contamination : ℚ
  n_estimators : Nat
  random_state : Nat
  model : IsoForestModel
  is_trained : Bool

/-- `AnomalyDetector.train`: raises `ValueError` (`invalidInput`) on a
0-row matrix before touching the model, otherwise fits and sets
`is_trained`.  The returned detector is the object's state after the call
(unchanged when the error is raised). -/
def AnomalyDetector.train (fitFn : Mat → IsoForestModel) (d : AnomalyDetector) (X : Mat) :
    Except DetectorError Unit × AnomalyDetector :=
  if X.length = 0 then (.error .invalidInput, d)
  else (.ok (), { d with model := fitFn X, is_trained := true })

/-- `AnomalyDetector.predict`: `RuntimeError` (`notTrained`) when not trained
(checked first, so even an empty matrix fails), empty output on an empty
matrix, otherwise the fitted model's predictions. -/
def AnomalyDetector.predict (d : AnomalyDetector) (X : Mat) : Except DetectorError (List Int) :=
  if d.is_trained = false then .error .notTrained
  else if X.length = 0 then .ok []
  else .ok (d.model.predictFn X)

/-- `AnomalyDetector.score_samples`: same control flow as `predict`, with
the fitted model's continuous scores. -/
def AnomalyDetector.score_samples (d : AnomalyDetector) (X : Mat) :
    Except DetectorError (List ℚ) :=
  if d.is_trained = false then .error .notTrained
  else if X.length = 0 then .ok []
  else .ok (d.model.scoreFn X)

/-- Outcome reported by the CLI training routine (`False` with a "no data"
message, `False` with an "insufficient data" message, or `True`). -/
inductive TrainCliOutcome where
  | noData
  | insufficientData
  | trained
deriving DecidableEq, Repr

/-- `train_model_cli` (`src/main.py`): `df` models the batch returned by
`data_handler.get_recent_logs`.  An empty batch or a feature matrix with
fewer than 10 rows is reported as a failure without invoking
`anomaly_detector.train`; otherwise the detector is trained on the extracted
feature matrix. -/
def train_model_cli (fitFn : Mat → IsoForestModel) (sqrtFn : ℚ → ℚ) (time_window : ℚ)
    (df : List Event) (d : AnomalyDetector) : TrainCliOutcome × AnomalyDetector :=
  if df.isEmpty then (.noData, d)
  else
    let features_df := engineer_features sqrtFn time_window df
    let X := get_feature_vector (features_df.map FeatureRow.toVector)
    if X.length < 10 then (.insufficientData, d)
    else (.trained, (AnomalyDetector.train fitFn d X).2)

/-- One row of the `network_logs` table (`src/src/data_handler.py`),
with the two mutable result columns `is_anomaly` and `anomaly_score`. -/
structure LogRow where
  id : Nat
  timestamp : ℚ
  device_id : String
  source_ip : String
  destination_ip : String
  port : Nat
  protocol : String
  bytes_sent : ℚ
  bytes_received : ℚ
  is_anomaly : Int
  anomaly_score : ℚ
deriving DecidableEq, Repr

/-- `DataHandler.update_anomaly_status`: the SQL
`UPDATE network_logs SET is_anomaly = ?, anomaly_score = ? WHERE id = ?`.
An `UPDATE` matching zero rows is not an SQLite error; the Python method
checks nothing, commits, and returns `None`, so the embedding is a total
function on the row store and exposes no failure channel. -/
def update_anomaly_status (db : List LogRow) (log_id : Nat) (is_anomaly : Bool)
    (anomaly_score : ℚ) : List LogRow :=
  db.map (fun r =>
    if r.id = log_id then
      { r with is_anomaly := if is_anomaly then 1 else 0, anomaly_score := anomaly_score }
    else r)

/-- Error of the spec-side update contract. -/
inductive UpdateError where
  | eventNotFound
deriving DecidableEq, Repr

/-- Modelled from the spec (`update_result(event_id, ...) -> success/failure`;
"called for an event id that does not exist is reported as a failure"): the
update succeeds exactly when the id is present, and is a reported failure
otherwise.  Written to the spec's words for comparison with the code's
`update_anomaly_status`. -/
def update_result_spec (db : List LogRow) (event_id : Nat) (is_anomaly : Bool)
    (anomaly_score : ℚ) : Except UpdateError (List LogRow) :=
  if db.any (fun r => decide (r.id = event_id)) then
    .ok (update_anomaly_status db event_id is_anomaly anomaly_score)
  else .error .eventNotFound

/-- The feature dictionary handed to `predict_anomaly`
(`src/src/ai_model.py`), after `preprocess_features` has fixed the column
order to `['usage', 'hour', 'reconnect_delta', 'packet_length']`. -/
structure SensorFeatures where
  usage : ℚ
  hour : ℚ
  reconnect_delta : ℚ
  packet_length : ℚ
deriving DecidableEq, Repr

/-- `predict_anomaly` (`src/src/ai_model.py`): the loaded model is abstracted
by its `decision_function` and `predict` on the single-row frame.  The raw
score is rescaled by `1 - (raw + 1) / 2` and clamped with
`max(0.01, min(0.99, risk_score))`; the binary flag comes from the model's
prediction. -/
def predict_anomaly (decisionFn : SensorFeatures → ℚ) (predictFn : SensorFeatures → Int)
    (features : SensorFeatures) : String × ℚ :=
  let raw_score := decisionFn features
  let risk_score := 1 - (raw_score + 1) / 2
  let anomaly_flag := if predictFn features = -1 then "YES" else "NO"
  (anomaly_flag, max (1 / 100 : ℚ) (min (99 / 100 : ℚ) risk_score))

/-- A pandas frame living on the Python heap: either a raw log frame or the
engineered feature frame. -/
inductive PdFrame where
  | raw (df : List Event)
  | feat (rows : List FeatureRow)
deriving DecidableEq, Repr

instance : Inhabited PdFrame := ⟨.raw []⟩

/-- Heap model of `FeatureEngineer.engineer_features` for the aliasing /
frame effect: the heap is a list of frames, variables are cell indices.
On the empty batch the method returns its argument unchanged (same cell).
Otherwise `features_df = df.copy()` allocates a fresh cell holding a copy of
the input; every subsequent statement of the method body (the `datetime`
column assignment, `sort_values` rebinding, and the four in-place
column-writing helpers) reads and writes only that fresh cell, summarised
here by storing the fully engineered frame into it.  The input cell `dfIdx`
is never written. -/
def engineer_features_heap (sqrtFn : ℚ → ℚ) (time_window : ℚ) (h : List PdFrame)
    (dfIdx : Nat) : List PdFrame × Nat :=
  match h.getD dfIdx default with
  | .raw d =>
    if d.isEmpty then (h, dfIdx)
    else
      let fIdx := h.length
      let h1 := h ++ [.raw d]
      let h2 := h1.set fIdx (.feat (engineer_features sqrtFn time_window d))
      (h2, fIdx)
  | .feat _ => (h, dfIdx)

/-! ## Helper lemmas shared between claims -/

/-- The engineered table always has exactly one row per input event. -/
theorem length_engineer_features (sqrtFn : ℚ → ℚ) (tw : ℚ) (df : List Event) :
    (engineer_features sqrtFn tw df).length = df.length := by
  unfold engineer_features
  split
  · next hemp => rw [List.isEmpty_iff.1 hemp]; rfl
  · rw [List.length_map, List.enum_length, sortEvents]
    exact (List.perm_insertionSort tsLE df).length_eq

/-- A non-empty table keeps its row count through `get_feature_vector`. -/
theorem length_get_feature_vector (t : List (List FVal)) (h : t ≠ []) :
    (get_feature_vector t).length = t.length := by
  unfold get_feature_vector
  rw [if_neg (by simpa using h), List.length_map]

/-- The `id` column of the engineered table is the `id` column of the sorted
batch. -/
theorem engineer_features_map_id (sqrtFn : ℚ → ℚ) (tw : ℚ) (df : List Event) :
    (engineer_features sqrtFn tw df).map (·.id) = (sortEvents df).map (·.id) := by
  unfold engineer_features
  split
  · next hemp => rw [List.isEmpty_iff.1 hemp]; rfl
  · rw [List.map_map]
    conv_rhs => rw [← List.enum_map_snd (sortEvents df), List.map_map]
    rfl

/-- A mock fitted model used by concrete witnesses. -/
def mockModel : IsoForestModel := ⟨fun _ => [], fun _ => []⟩

/-- A freshly constructed (untrained) detector with the configured default
hyperparameters, used by concrete witnesses. -/
def detectorUntrained : AnomalyDetector :=
  { contamination := 1 / 10, n_estimators := 100, random_state := 42,
    model := mockModel, is_trained := false }

/-- A detector in the trained state, used by concrete witnesses. -/
def detectorTrained : AnomalyDetector :=
  { detectorUntrained with is_trained := true }

/-! ## Claims -/

/-- C2: `predict`/`score_samples` on an untrained model fail with
`NotTrained` for every input matrix — the trained check precedes the empty
check, so even an empty matrix fails — and never return a value; once
trained, both return an empty result on an empty matrix instead of an
error. -/
theorem c2_predict_score_trained_state (d : AnomalyDetector) (X : Mat) :
    (d.is_trained = false →
      d.predict X = .error .notTrained ∧ d.score_samples X = .error .notTrained) ∧
    (d.is_trained = true →
      d.predict [] = .ok [] ∧ d.score_samples [] = .ok []) := by
  constructor
  · intro h
    constructor <;> simp [AnomalyDetector.predict, AnomalyDetector.score_samples, h]
  · intro h
    constructor <;> simp [AnomalyDetector.predict, AnomalyDetector.score_samples, h]

/-- Witness for C2 at concrete detectors and a concrete non-empty matrix. -/
theorem c2_predict_score_trained_state_witness :
    detectorUntrained.predict [[FVal.fin 1]] = .error .notTrained ∧
    detectorTrained.predict [] = .ok [] :=
  ⟨((c2_predict_score_trained_state detectorUntrained [[FVal.fin 1]]).1 rfl).1,
   ((c2_predict_score_trained_state detectorTrained []).2 rfl).1⟩

/-- C8: for every feature input and every raw model score (the model's
`decision_function` is universally quantified), the risk score returned by
`predict_anomaly` lies in the closed interval `[0.01, 0.99]`, because the
rescaling `1 - (raw + 1) / 2` is clamped by `max(0.01, min(0.99, ·))`
before being returned. -/
theorem c8_risk_score_clamped (decisionFn : SensorFeatures → ℚ)
    (predictFn : SensorFeatures → Int) (features : SensorFeatures) :
    1 / 100 ≤ (predict_anomaly decisionFn predictFn features).2 ∧
    (predict_anomaly decisionFn predictFn features).2 ≤ 99 / 100 := by
  unfold predict_anomaly
  exact ⟨le_max_left _ _, max_le (by norm_num) (min_le_left _ _)⟩

/-- C4: every cell of the matrix returned by `get_feature_vector` is finite;
every non-finite cell (NaN, +∞, −∞) is replaced by `0` by the
`np.nan_to_num` pass; and the empty table yields the empty matrix rather
than an error. -/
theorem c4_feature_vector_finite (table : List (List FVal)) :
    (∀ row ∈ get_feature_vector table, ∀ x ∈ row, x.isFinite = true) ∧
    (∀ v : FVal, v.isFinite = false → nan_to_num v = .fin 0) ∧
    get_feature_vector [] = [] := by
  refine ⟨?_, ?_, rfl⟩
  · intro row hrow x hx
    unfold get_feature_vector at hrow
    split at hrow
    · simp at hrow
    · obtain ⟨r, _, rfl⟩ := List.mem_map.1 hrow
      obtain ⟨y, _, rfl⟩ := List.mem_map.1 hx
      cases y <;> rfl
  · intro v hv
    cases v with
    | fin q => simp [FVal.isFinite] at hv
    | nan => rfl
    | pinf => rfl
    | ninf => rfl

/-- Witness for C4 on a table holding a NaN cell. -/
theorem c4_feature_vector_finite_witness :
    FVal.isFinite (.fin 0) = true ∧ nan_to_num .nan = .fin 0 :=
  ⟨(c4_feature_vector_finite [[FVal.nan]]).1 [FVal.fin 0] (by decide)
      (FVal.fin 0) (by decide),
   (c4_feature_vector_finite [[FVal.nan]]).2.1 FVal.nan rfl⟩

/-- A concrete one-row store used to exercise C9. -/
def ceDb : List LogRow :=
  [⟨1, 100, "device_1", "192.168.1.2", "10.0.0.5", 80, "TCP", 10, 20, 0, 0⟩]

/-- C9 counterexample: calling `update_anomaly_status` with id `2`, which is
not present in the store, completes normally as a silent no-op — the store
is returned unchanged and no failure is reported (the Python method runs the
`UPDATE`, which matches zero rows, commits and returns `None`; it has no
failure channel at all) — whereas the spec-side contract `update_result_spec`
demands a reported `eventNotFound` failure for the same call.  This refutes
the claim that a missing id "is reported as a failure to the caller". -/
theorem c9_update_missing_id_counterexample :
    update_anomaly_status ceDb 2 true (1 / 2) = ceDb ∧
    update_result_spec ceDb 2 true (1 / 2) = .error .eventNotFound := by
  constructor
  · rfl
  · rfl

/-- C9 amended: calling `update_anomaly_status` with an event id not present
in the store neither reports a failure nor creates a new row: the call
completes normally and leaves the store exactly unchanged (a silent no-op).
-/
theorem c9_update_missing_id_noop (db : List LogRow) (log_id : Nat)
    (is_anomaly : Bool) (anomaly_score : ℚ) (h : ∀ r ∈ db, r.id ≠ log_id) :
    update_anomaly_status db log_id is_anomaly anomaly_score = db := by
  unfold update_anomaly_status
  have hc : db.map (fun r =>
      if r.id = log_id then
        { r with is_anomaly := if is_anomaly then 1 else 0,
                 anomaly_score := anomaly_score }
      else r) = db.map id :=
    List.map_congr_left (fun r hr => by simp [h r hr])
  rw [hc, List.map_id]

/-- Witness for C9's amended theorem on the concrete store. -/
theorem c9_update_missing_id_noop_witness :
    update_anomaly_status ceDb 7 false 0 = ceDb :=
  c9_update_missing_id_noop ceDb 7 false 0 (by decide)

/-- A concrete single-event batch used by the C3 witness. -/
def evC3 : Event := ⟨5, 1000, "device_1", "192.168.1.2", "10.0.0.5", 443, "TCP", 100, 200⟩

/-- C3: `train` on a matrix with 0 rows raises `ValueError` (`InvalidInput`)
before the model is touched, so the detector state — in particular its
`is_trained` flag — is left unchanged (still `false` when it was `false`);
and at the orchestrator level a training batch yielding between 1 and 9
feature rows is reported as `InsufficientData` and `AnomalyDetector.train`
is never invoked (the detector comes back identical). -/
theorem c3_empty_train_and_insufficient_data (fitFn : Mat → IsoForestModel)
    (sqrtFn : ℚ → ℚ) (tw : ℚ) (d : AnomalyDetector) (df : List Event)
    (h1 : 1 ≤ df.length) (h2 : df.length ≤ 9) :
    (AnomalyDetector.train fitFn d []).1 = .error .invalidInput ∧
    (AnomalyDetector.train fitFn d []).2 = d ∧
    train_model_cli fitFn sqrtFn tw df d = (.insufficientData, d) := by
  refine ⟨rfl, rfl, ?_⟩
  have hne : df ≠ [] := by
    intro h
    rw [h] at h1
    exact absurd h1 (by decide)
  have hfne : (engineer_features sqrtFn tw df).map FeatureRow.toVector ≠ [] := by
    intro h
    have := congrArg List.length h
    rw [List.length_map, length_engineer_features, List.length_nil] at this
    omega
  have hX : (get_feature_vector
      ((engineer_features sqrtFn tw df).map FeatureRow.toVector)).length = df.length := by
    rw [length_get_feature_vector _ hfne, List.length_map, length_engineer_features]
  simp only [train_model_cli]
  rw [if_neg (show ¬df.isEmpty = true by simp [hne]),
    if_pos (show (get_feature_vector
      ((engineer_features sqrtFn tw df).map FeatureRow.toVector)).length < 10 by omega)]

/-- Witness for C3 on a concrete one-event batch. -/
theorem c3_empty_train_and_insufficient_data_witness :
    (AnomalyDetector.train (fun _ => mockModel) detectorUntrained []).1
      = .error .invalidInput ∧
    (AnomalyDetector.train (fun _ => mockModel) detectorUntrained []).2
      = detectorUntrained ∧
    train_model_cli (fun _ => mockModel) (fun q => q) 60 [evC3] detectorUntrained
      = (.insufficientData, detectorUntrained) :=
  c3_empty_train_and_insufficient_data (fun _ => mockModel) (fun q => q) 60
    detectorUntrained [evC3] (by decide) (by decide)

/-- C10: `engineer_features` never mutates the caller's input frame: in the
heap model, the cell holding the argument frame is byte-for-byte identical
after the call — every field of every row, the row order and the row count
are preserved — because the method copies the frame (`df.copy()`) before any
in-place column assignment, and all subsequent writes target the copy's
cell. -/
theorem c10_engineer_features_preserves_input (sqrtFn : ℚ → ℚ) (tw : ℚ)
    (h : List PdFrame) (dfIdx : Nat) (hlt : dfIdx < h.length) :
    ((engineer_features_heap sqrtFn tw h dfIdx).1).getD dfIdx default
      = h.getD dfIdx default := by
  unfold engineer_features_heap
  split
  · next d _ =>
    split
    · rfl
    · have hne : h.length ≠ dfIdx := by omega
      simp only []
      rw [List.getD_eq_getElem?_getD, List.getElem?_set_ne hne,
        List.getElem?_append_left hlt, ← List.getD_eq_getElem?_getD]
  · rfl

/-- Witness for C10 on a concrete one-frame heap. -/
theorem c10_engineer_features_preserves_input_witness :
    ((engineer_features_heap (fun q => q) 60 [.raw [evC3]] 0).1).getD 0 default
      = (([.raw [evC3]] : List PdFrame)).getD 0 default :=
  c10_engineer_features_preserves_input (fun q => q) 60 [.raw [evC3]] 0 (by decide)

/-- C5: a batch containing exactly one event is engineered without error
(the embedding is a total function, mirroring that no pandas operation
raises here), and the single resulting row has `delta_t`, `delta_t_device`,
`delta_t_source`, `delta_t_std`, `bytes_std` and `bytes_zscore` all `0`:
the `diff()` columns are `NaN`-filled to `0`, a one-sample rolling `std()`
is `NaN`-filled to `0`, and the `bytes_zscore` guard `bytes_std > 0` fails.
-/
theorem c5_single_event_zero_features (sqrtFn : ℚ → ℚ) (tw : ℚ) (e : Event) :
    (engineer_features sqrtFn tw [e]).map
      (fun r => (r.delta_t, r.delta_t_device, r.delta_t_source, r.delta_t_std,
        r.bytes_std, r.bytes_zscore)) = [(0, 0, 0, 0, 0, 0)] := rfl

/-- C6: every output row of the feature engine satisfies
`total_bytes = bytes_sent + bytes_received` and
`bytes_ratio = bytes_sent / bytes_received` when `bytes_received > 0`,
else `0` (in particular `0` whenever `bytes_received = 0`, for any
`bytes_sent`); the embedding is total, mirroring the `np.where` guard that
prevents any division error. -/
theorem c6_traffic_features (sqrtFn : ℚ → ℚ) (tw : ℚ) (df : List Event)
    (r : FeatureRow) (hr : r ∈ engineer_features sqrtFn tw df) :
    r.total_bytes = r.bytes_sent + r.bytes_received ∧
    r.bytes_ratio =
      (if r.bytes_received > 0 then r.bytes_sent / r.bytes_received else 0) := by
  unfold engineer_features at hr
  split at hr
  · simp at hr
  · obtain ⟨⟨i, e⟩, _, rfl⟩ := List.mem_map.1 hr
    exact ⟨rfl, rfl⟩

/-- Witness for C6 on a concrete one-event batch with `bytes_received = 0`. -/
theorem c6_traffic_features_witness :
    ((engineer_features (fun q => q) 60
        [⟨3, 50, "device_2", "192.168.1.9", "10.0.0.6", 22, "UDP", 77, 0⟩]).headD
      default).total_bytes
      = ((engineer_features (fun q => q) 60
          [⟨3, 50, "device_2", "192.168.1.9", "10.0.0.6", 22, "UDP", 77, 0⟩]).headD
        default).bytes_sent
        + ((engineer_features (fun q => q) 60
            [⟨3, 50, "device_2", "192.168.1.9", "10.0.0.6", 22, "UDP", 77, 0⟩]).headD
          default).bytes_received :=
  (c6_traffic_features (fun q => q) 60
    [⟨3, 50, "device_2", "192.168.1.9", "10.0.0.6", 22, "UDP", 77, 0⟩] _
    (by exact List.mem_cons_self _ _)).1

/-- A concrete two-event batch (distinct ids, out-of-order timestamps) used
by the C1 witness. -/
def evsC1 : List Event :=
  [⟨11, 200, "device_1", "192.168.1.2", "10.0.0.5", 80, "TCP", 10, 20⟩,
   ⟨12, 150, "device_2", "192.168.1.3", "10.0.0.6", 443, "TCP", 30, 40⟩]

/-- C1: for every non-empty batch, the feature-engine output has exactly as
many rows as the input; the multiset of event ids carried by the output rows
is exactly the multiset of input ids (the output is a permutation of the
input on the carried `id` column, i.e. a bijection between output rows and
input events); and the output rows are ordered by ascending timestamp. -/
theorem c1_row_bijection_and_order (sqrtFn : ℚ → ℚ) (tw : ℚ) (df : List Event)
    (h : df ≠ []) :
    (engineer_features sqrtFn tw df).length = df.length ∧
    List.Perm ((engineer_features sqrtFn tw df).map (·.id)) (df.map (·.id)) ∧
    (engineer_features sqrtFn tw df).Pairwise
      (fun a b => a.timestamp ≤ b.timestamp) := by
  refine ⟨length_engineer_features sqrtFn tw df, ?_, ?_⟩
  · rw [engineer_features_map_id]
    exact (List.perm_insertionSort tsLE df).map _
  · have hs : (sortEvents df).Pairwise tsLE := List.sorted_insertionSort tsLE df
    unfold engineer_features
    rw [if_neg (by simpa using h), List.pairwise_map]
    rw [← List.enum_map_snd (sortEvents df), List.pairwise_map] at hs
    exact hs

/-- Witness for C1 on a concrete two-event batch. -/
theorem c1_row_bijection_and_order_witness :
    (engineer_features (fun q => q) 60 evsC1).length = evsC1.length ∧
    List.Perm ((engineer_features (fun q => q) 60 evsC1).map (·.id)) (evsC1.map (·.id)) ∧
    (engineer_features (fun q => q) 60 evsC1).Pairwise
      (fun a b => a.timestamp ≤ b.timestamp) :=
  c1_row_bijection_and_order (fun q => q) 60 evsC1 (fun h => List.noConfusion h)

/-- The claim-side window count of C7: the number of events in the *entire
batch* whose timestamp lies in the trailing time window of length `tw`
ending at time `t` (taking the window as the half-open interval
`(t - tw, t]`, the reading matching pandas' default `closed='right'`). -/
def specWindowCount (tw : ℚ) (df : List Event) (t : ℚ) : ℚ :=
  ((df.filter (fun x => decide (t - tw < x.timestamp ∧ x.timestamp ≤ t))).length : ℚ)

/-- A concrete batch with two events sharing one timestamp, used to refute
C7. -/
def evsC7ce : List Event :=
  [⟨21, 100, "device_1", "192.168.1.2", "10.0.0.5", 80, "TCP", 10, 20⟩,
   ⟨22, 100, "device_1", "192.168.1.2", "10.0.0.5", 80, "TCP", 30, 40⟩]

/-- C7 counterexample: on a batch of two events with the same timestamp,
pandas' time-based rolling window only ever extends backwards over rows at
positions up to the current row, so the first row's `events_per_window` is
`1`, while the batch-wide count of events in its window — what the claim
asserts — is `2`. -/
theorem c7_events_per_window_counterexample :
    ¬ (∀ r ∈ engineer_features (fun q => q) 60 evsC7ce,
        r.events_per_window = specWindowCount 60 evsC7ce r.timestamp) := by
  with_unfolding_all decide

/-- The engineered row at position `i` is `mkRow` applied to the sorted batch
at `i`. -/
theorem engineer_features_get (sqrtFn : ℚ → ℚ) (tw : ℚ) (df : List Event) (i : Nat)
    (hi : i < (engineer_features sqrtFn tw df).length)
    (hil : i < (sortEvents df).length) :
    (engineer_features sqrtFn tw df).get ⟨i, hi⟩
      = mkRow sqrtFn tw (sortEvents df) i ((sortEvents df).get ⟨i, hil⟩) := by
  have hne : df.isEmpty = false := by
    cases hemp : df.isEmpty
    · rfl
    · exfalso
      rw [length_engineer_features, List.isEmpty_iff.1 hemp] at hi
      simp at hi
  rw [List.get_eq_getElem, List.get_eq_getElem]
  simp only [engineer_features, hne, Bool.false_eq_true, if_false]
  rw [List.getElem_map, List.getElem_enum]

/-- C7 amended: `events_per_window` at each output row equals the number of
events *at or before that row in the ascending-timestamp order* whose
timestamp lies in the trailing half-open window `(t - tw, t]`; this equals
the batch-wide count the claim asserts whenever no two events of the batch
share a timestamp (the amendment the counterexample forces: with duplicated
timestamps, pandas' rolling window never looks past the current row, so
later events with the same timestamp are not counted). -/
theorem c7_events_per_window_amended (sqrtFn : ℚ → ℚ) (tw : ℚ) (df : List Event)
    (hdist : df.Pairwise (fun a b => a.timestamp ≠ b.timestamp))
    (i : Nat) (hi : i < (engineer_features sqrtFn tw df).length) :
    ((engineer_features sqrtFn tw df).get ⟨i, hi⟩).events_per_window
      = specWindowCount tw df ((engineer_features sqrtFn tw df).get ⟨i, hi⟩).timestamp := by
  have hperm : List.Perm (sortEvents df) df := List.perm_insertionSort tsLE df
  have hsorted : (sortEvents df).Pairwise tsLE := List.sorted_insertionSort tsLE df
  have hdists : (sortEvents df).Pairwise (fun a b => a.timestamp ≠ b.timestamp) :=
    (hperm.pairwise_iff (fun hab he => hab he.symm)).2 hdist
  have hil : i < (sortEvents df).length := by
    rw [hperm.length_eq, ← length_engineer_features sqrtFn tw df]
    exact hi
  rw [engineer_features_get sqrtFn tw df i hi hil]
  set s := sortEvents df with hsdef
  set t := (s.get ⟨i, hil⟩).timestamp with htdef
  show (((s.take (i + 1)).filter (fun x =>
      decide (t - tw < x.timestamp ∧ x.timestamp ≤ t))).length : ℚ)
    = specWindowCount tw df t
  unfold specWindowCount
  norm_cast
  rw [← List.countP_eq_length_filter, ← List.countP_eq_length_filter, ← hperm.countP_eq]
  have hsplit := List.countP_append (s.take (i + 1)) (s.drop (i + 1))
    (p := fun x => decide (t - tw < x.timestamp ∧ x.timestamp ≤ t))
  rw [List.take_append_drop] at hsplit
  rw [hsplit]
  suffices h0 : (s.drop (i + 1)).countP (fun x =>
      decide (t - tw < x.timestamp ∧ x.timestamp ≤ t)) = 0 by
    omega
  rw [List.countP_eq_zero]
  intro a ha
  obtain ⟨k, hk, rfl⟩ := List.mem_iff_getElem.1 ha
  have hkb : i + 1 + k < s.length := by
    rw [List.length_drop] at hk
    omega
  have hmono := List.pairwise_iff_getElem.1 hsorted i (i + 1 + k) hil hkb (by omega)
  have hneq := List.pairwise_iff_getElem.1 hdists i (i + 1 + k) hil hkb (by omega)
  rw [List.getElem_drop]
  simp only [decide_eq_true_eq, not_and, not_le]
  intro _
  rw [htdef, List.get_eq_getElem]
  exact lt_of_le_of_ne hmono hneq

/-- A concrete two-event batch with distinct timestamps, used by the C7
witness. -/
def evsC7w : List Event :=
  [⟨31, 100, "device_1", "192.168.1.2", "10.0.0.5", 80, "TCP", 10, 20⟩,
   ⟨32, 130, "device_2", "192.168.1.3", "10.0.0.6", 443, "TCP", 30, 40⟩]

/-- Witness for C7's amended theorem on a distinct-timestamp batch. -/
theorem c7_events_per_window_amended_witness :
    ((engineer_features (fun q => q) 60 evsC7w).get
        ⟨1, by with_unfolding_all decide⟩).events_per_window
      = specWindowCount 60 evsC7w
          ((engineer_features (fun q => q) 60 evsC7w).get
            ⟨1, by with_unfolding_all decide⟩).timestamp :=
  c7_events_per_window_amended (fun q => q) 60 evsC7w (by decide) 1
    (by with_unfolding_all decide)
